import Mathlib

/-!
Verification development for the NodaDB data-access core
(`src-tauri/src/database/mod.rs`, `src-tauri/src/ssh_tunnel.rs`,
`src-tauri/src/models/mod.rs`).

The Rust code is shallowly embedded: pure string/value manipulation is
translated directly; the database engine, the JSON parser of serde_json and
the SSH transport are treated as an explicit environment (`Env`, `SshEnv`)
supplying the outcome of each external call; the connection registry is an
explicit association list threaded through the operations; statements sent
to an engine are collected in a trace so that "no statement was executed"
is a provable fact.
-/

namespace NodaDB

/-- Engine kind, from `models/mod.rs` `DatabaseType`. -/
inductive DatabaseType where
  | SQLite
  | PostgreSQL
  | MySQL
deriving DecidableEq, Repr

/-- Connection descriptor, from `models/mod.rs` `ConnectionConfig`
(the `ssh_config` field is not consulted by any embedded operation and is
omitted; ports are naturals). -/
structure ConnectionConfig where
  id : String
  name : String
  db_type : DatabaseType
  host : Option String
  port : Option Nat
  username : Option String
  password : Option String
  database : Option String
  file_path : Option String
deriving Repr

mutual
/-- Model of `serde_json::Value`.  Numbers keep the distinction the code
relies on: `int` for values built from `i64`, `float` for values built from
`f64` (modelled as rationals, which is exact for every comparison and every
literal the claims use). -/
inductive Json where
  | null
  | bool (b : Bool)
  | int (n : Int)
  | float (q : ℚ)
  | str (s : String)
  | arr (items : JsonList)
  | obj (fields : JsonFields)

/-- Model of `Vec<serde_json::Value>` inside a JSON array. -/
inductive JsonList where
  | nil
  | cons (head : Json) (tail : JsonList)

/-- Model of `serde_json::Map<String, Value>`, kept as the ordered entry
list of the map (one entry per key; insertion order preserved, per spec §3). -/
inductive JsonFields where
  | nil
  | cons (key : String) (value : Json) (rest : JsonFields)
end

/-- `Map::keys()` in entry order. -/
def JsonFields.keys : JsonFields → List String
  | .nil => []
  | .cons k _ rest => k :: keys rest

/-- `Map::values()` in entry order. -/
def JsonFields.values : JsonFields → List Json
  | .nil => []
  | .cons _ v rest => v :: values rest

/-- `Map::get(key)`. -/
def JsonFields.get : JsonFields → String → Option Json
  | .nil, _ => none
  | .cons k v rest, key => if k = key then some v else get rest key

/-- `Value::as_object()`. -/
def Json.asObj : Json → Option JsonFields
  | .obj fields => some fields
  | _ => none

/-- `Value::as_array()`. -/
def Json.asArr : Json → Option JsonList
  | .arr items => some items
  | _ => none

/-- `Value::as_str()`. -/
def Json.asStr : Json → Option String
  | .str s => some s
  | _ => none

/-- `Value::as_i64()`: only integer-backed numbers answer. -/
def Json.asI64 : Json → Option Int
  | .int n => some n
  | _ => none

/-- `Value::as_f64()`: any JSON number answers. -/
def Json.asF64 : Json → Option ℚ
  | .int n => some (n : ℚ)
  | .float q => some q
  | _ => none

/-- Modelled rendering of an `f64` by Rust `Display`; the exact digit string
of a float is immaterial to every claim (no claim compares a rendered float). -/
def renderFloat (q : ℚ) : String := toString q

/-- The single-quote character (code 39). -/
def quoteChar : Char := Char.ofNat 39

/-- Rust `str::replace("'", "''")` — the only escaping the row builders
apply — character by character (the pattern is the single character
`quoteChar`). -/
def doubleQuotesChars : List Char → List Char
  | [] => []
  | c :: rest =>
    if c = quoteChar then c :: c :: doubleQuotesChars rest
    else c :: doubleQuotesChars rest

/-- `s.replace("'", "''")` on strings. -/
def doubleQuotes (s : String) : String := String.mk (doubleQuotesChars s.toList)

/-- JSON string escaping used by `serde_json` serialization, modelled for
the quote and backslash (control characters do not occur in any claim
input). -/
def escapeJsonChars : List Char → List Char
  | [] => []
  | c :: rest =>
    if c = '\\' then '\\' :: '\\' :: escapeJsonChars rest
    else if c = '"' then '\\' :: '"' :: escapeJsonChars rest
    else c :: escapeJsonChars rest

/-- JSON string escaping on strings. -/
def escapeJsonString (s : String) : String := String.mk (escapeJsonChars s.toList)

mutual
/-- `Value::to_string()` (serde_json serialization), used by the row
builders for non-null, non-string values. -/
def Json.render : Json → String
  | .null => "null"
  | .bool b => cond b "true" "false"
  | .int n => toString n
  | .float q => renderFloat q
  | .str s => "\"" ++ escapeJsonString s ++ "\""
  | .arr items => "[" ++ JsonList.renderItems items ++ "]"
  | .obj fields => "\x7b" ++ JsonFields.renderFields fields ++ "\x7d"

/-- Comma-joined serialization of array items. -/
def JsonList.renderItems : JsonList → String
  | .nil => ""
  | .cons v .nil => Json.render v
  | .cons v rest => Json.render v ++ "," ++ JsonList.renderItems rest

/-- Comma-joined serialization of object entries. -/
def JsonFields.renderFields : JsonFields → String
  | .nil => ""
  | .cons k v .nil => "\"" ++ escapeJsonString k ++ "\":" ++ Json.render v
  | .cons k v rest =>
      "\"" ++ escapeJsonString k ++ "\":" ++ Json.render v ++ "," ++ JsonFields.renderFields rest
end

/-! ## Date and time values

`chrono` values are modelled by their calendar fields; the `format`
calls of the source are implemented literally (`%Y` pads to four digits,
the others to two). Negative years do not occur in any claim and years are
kept as naturals. -/

/-- A `chrono::NaiveDate`. -/
structure DateV where
  year : Nat
  month : Nat
  day : Nat
deriving DecidableEq, Repr

/-- A `chrono::NaiveTime` (sub-second precision is dropped, as the format
strings of the source do). -/
structure TimeV where
  hour : Nat
  minute : Nat
  second : Nat
deriving DecidableEq, Repr

/-- A `chrono::NaiveDateTime` (also the instant of a `DateTime<Utc>`). -/
structure DateTimeV where
  date : DateV
  time : TimeV
deriving DecidableEq, Repr

/-- Two-digit zero padding, as `%m`, `%d`, `%H`, `%M`, `%S`. -/
def pad2 (n : Nat) : String :=
  if n < 10 then "0" ++ toString n else toString n

/-- Four-digit zero padding, as `%Y`. -/
def pad4 (n : Nat) : String :=
  if n < 10 then "000" ++ toString n
  else if n < 100 then "00" ++ toString n
  else if n < 1000 then "0" ++ toString n
  else toString n

/-- `format("%Y-%m-%d")`. -/
def format_date (d : DateV) : String :=
  pad4 d.year ++ "-" ++ pad2 d.month ++ "-" ++ pad2 d.day

/-- `format("%H:%M:%S")`. -/
def format_time (t : TimeV) : String :=
  pad2 t.hour ++ ":" ++ pad2 t.minute ++ ":" ++ pad2 t.second

/-- `format("%Y-%m-%d %H:%M:%S")`. -/
def format_date_time (v : DateTimeV) : String :=
  format_date v.date ++ " " ++ format_time v.time

/-! ## The dialect value decoder (spec §4.1, `process_rows!` match arms)

A raw wire value is modelled by what each `row.try_get::<T>(idx)` of the
source would yield for it: `none` models a failed decode (`Err`), `some`
a successful one. `decode` transcribes the `match col.type_info().name()`
of `process_rows!` (lines 36–87 of `database/mod.rs`); the or-patterns of
the Rust `match` are rendered as list-membership tests on the same names,
in the same arm order. -/

/-- The typed decodings `sqlx` offers for one raw column value. -/
structure RawValue where
  getString : Option String
  getI64 : Option Int
  getF64 : Option ℚ
  getBool : Option Bool
  getNaiveDateTime : Option DateTimeV
  getUtcDateTime : Option DateTimeV
  getNaiveDate : Option DateV
  getNaiveTime : Option TimeV
deriving DecidableEq, Repr

/-- Arm 1 names: `"TEXT" | "VARCHAR" | "CHAR" | "BPCHAR"`. -/
def textTypeNames : List String := ["TEXT", "VARCHAR", "CHAR", "BPCHAR"]

/-- Arm 2 names: `"INTEGER" | "INT" | "BIGINT" | "INT2" | "INT4" | "INT8"`. -/
def intTypeNames : List String := ["INTEGER", "INT", "BIGINT", "INT2", "INT4", "INT8"]

/-- Arm 3 names: `"REAL" | "FLOAT" | "DOUBLE" | "FLOAT4" | "FLOAT8"`. -/
def floatTypeNames : List String := ["REAL", "FLOAT", "DOUBLE", "FLOAT4", "FLOAT8"]

/-- Arm 4 names: `"BOOLEAN" | "BOOL"`. -/
def boolTypeNames : List String := ["BOOLEAN", "BOOL"]

/-- The per-value decoder of `process_rows!`: `try_get` the type the
engine-reported name selects, `.unwrap_or(Value::Null)` on failure; the
`TIMESTAMPTZ` arm falls back to the zone-naive decode (`%Z` prints `UTC`
for `DateTime<Utc>`); the final arm is the string fallback. -/
def decode (typeName : String) (r : RawValue) : Json :=
  if typeName ∈ textTypeNames then
    match r.getString with
    | some s => .str s
    | none => .null
  else if typeName ∈ intTypeNames then
    match r.getI64 with
    | some n => .int n
    | none => .null
  else if typeName ∈ floatTypeNames then
    match r.getF64 with
    | some q => .float q
    | none => .null
  else if typeName ∈ boolTypeNames then
    match r.getBool with
    | some b => .bool b
    | none => .null
  else if typeName = "DATETIME" ∨ typeName = "TIMESTAMP" then
    match r.getNaiveDateTime with
    | some v => .str (format_date_time v)
    | none => .null
  else if typeName = "TIMESTAMPTZ" then
    match r.getUtcDateTime with
    | some v => .str (format_date_time v ++ " UTC")
    | none =>
      match r.getNaiveDateTime with
      | some v => .str (format_date_time v)
      | none => .null
  else if typeName = "DATE" then
    match r.getNaiveDate with
    | some v => .str (format_date v)
    | none => .null
  else if typeName = "TIME" then
    match r.getNaiveTime with
    | some v => .str (format_time v)
    | none => .null
  else
    match r.getString with
    | some s => .str s
    | none => .null

/-! ## Rows and result normalization (`process_rows!`) -/

/-- One column of a fetched row: `col.name()`, `col.type_info().name()`,
and the raw value at the column's index. -/
structure RawColumn where
  name : String
  typeName : String
  value : RawValue
deriving DecidableEq, Repr

/-- A fetched row, columns in engine order. -/
abbrev Row := List RawColumn

/-- `row.try_get::<String, _>(i).ok()`. -/
def rowGetString (row : Row) (i : Nat) : Option String :=
  (row.get? i).bind (fun c => c.value.getString)

/-- `row.try_get::<i64, _>(i).ok()`. -/
def rowGetI64 (row : Row) (i : Nat) : Option Int :=
  (row.get? i).bind (fun c => c.value.getI64)

/-- `row.try_get::<f64, _>(i).ok()`. -/
def rowGetF64 (row : Row) (i : Nat) : Option ℚ :=
  (row.get? i).bind (fun c => c.value.getF64)

/-- `models/mod.rs` `QueryResult`. -/
structure QueryResult where
  columns : List String
  rows : List Json
  rows_affected : Nat

/-- `serde_json::Map::insert`: overwrite the value of an existing key in
place, append a new key (spec §3: last write wins, order preserved). -/
def insertField : JsonFields → String → Json → JsonFields
  | .nil, k, v => .cons k v .nil
  | .cons k' v' rest, k, v =>
      if k' = k then .cons k' v rest else .cons k' v' (insertField rest k v)

/-- The per-row loop body of `process_rows!`: decode each column and insert
it into the row's map under the column name. -/
def decodeRow (row : Row) : Json :=
  .obj (row.foldl (fun m c => insertField m c.name (decode c.typeName c.value)) .nil)

/-- `process_rows!` (lines 15–100 of `database/mod.rs`): empty result set
short-circuits to an all-empty `QueryResult`; otherwise the column names
come from the first row and every row is decoded; `rows_affected` is `0`
on this read path. -/
def process_rows : List Row → QueryResult
  | [] => ⟨[], [], 0⟩
  | r0 :: rest => ⟨r0.map RawColumn.name, (r0 :: rest).map decodeRow, 0⟩

/-! ## The connection registry -/

/-- A live engine handle; only the engine kind of the handle is
observable in the embedding. -/
inductive DatabasePool where
  | sqlite
  | postgres
  | mysql
deriving DecidableEq, Repr

/-- The `HashMap<String, DatabasePool>` of `ConnectionManager`, as its
entry list (one entry per key). -/
abbrev Registry := List (String × DatabasePool)

/-- `HashMap::get`. -/
def regGet : Registry → String → Option DatabasePool
  | [], _ => none
  | (k, v) :: rest, key => if k = key then some v else regGet rest key

/-- `HashMap::insert`: replace the entry of an existing key, else add one. -/
def regInsert : Registry → String → DatabasePool → Registry
  | [], k, v => [(k, v)]
  | (k', v') :: rest, k, v =>
      if k' = k then (k, v) :: rest else (k', v') :: regInsert rest k v

/-- `HashMap::remove`: the removed value, if any, and the remaining map. -/
def regRemove : Registry → String → Option DatabasePool × Registry
  | [], _ => (none, [])
  | (k', v') :: rest, k =>
      if k' = k then (some v', rest)
      else
        let r := regRemove rest k
        (r.1, (k', v') :: r.2)

/-- The external world: each field gives the outcome of one kind of call
into `sqlx`, `serde_json` or the clock.  Queries are keyed by the exact
SQL text the code sends. -/
structure Env where
  openPool : String → Except String Unit
  fetchAll : String → Except String (List Row)
  fetchOne : String → Except String Row
  execute : String → Except String Nat
  parseJson : String → Except String Json
  latencyMs : Nat
  elapsedMs : ℚ

/-! ## Connection strings, `connect`, `disconnect` -/

/-- `.ok_or_else(|| anyhow!(msg))`. -/
def reqField {α : Type} (o : Option α) (msg : String) : Except String α :=
  match o with
  | some v => .ok v
  | none => .error msg

/-- `ConnectionManager::build_connection_string` (lines 130–162). -/
def build_connection_string (config : ConnectionConfig) : Except String String :=
  match config.db_type with
  | .SQLite =>
    match config.file_path with
    | none => .error "SQLite file path is required"
    | some path => .ok ("sqlite://" ++ path)
  | .PostgreSQL => do
    let host ← reqField config.host "Host is required"
    let port ← reqField config.port "Port is required"
    let username ← reqField config.username "Username is required"
    let password ← reqField config.password "Password is required"
    let database ← reqField config.database "Database is required"
    .ok ("postgresql://" ++ username ++ ":" ++ password ++ "@" ++ host ++ ":"
          ++ toString port ++ "/" ++ database)
  | .MySQL => do
    let host ← reqField config.host "Host is required"
    let port ← reqField config.port "Port is required"
    let username ← reqField config.username "Username is required"
    let password ← reqField config.password "Password is required"
    let database ← reqField config.database "Database is required"
    .ok ("mysql://" ++ username ++ ":" ++ password ++ "@" ++ host ++ ":"
          ++ toString port ++ "/" ++ database)

/-- The `let pool = match config.db_type { ... }` of
`ConnectionManager::connect`: build the engine-specific pool (the SQLite
arm inlines its own path check and connection string, as the source
does). -/
def connectPool (config : ConnectionConfig) (env : Env) : Except String DatabasePool :=
  match config.db_type with
  | .SQLite =>
    match config.file_path with
    | none => .error "SQLite file path is required"
    | some path =>
      match env.openPool ("sqlite://" ++ path) with
      | .error e => .error e
      | .ok _ => .ok .sqlite
  | .PostgreSQL =>
    match build_connection_string config with
    | .error e => .error e
    | .ok cs =>
      match env.openPool cs with
      | .error e => .error e
      | .ok _ => .ok .postgres
  | .MySQL =>
    match build_connection_string config with
    | .error e => .error e
    | .ok cs =>
      match env.openPool cs with
      | .error e => .error e
      | .ok _ => .ok .mysql

/-- `ConnectionManager::connect` (lines 164–191): build the pool, then
insert it into the map under `config.id`.  The registry is threaded
explicitly; on any failure it is returned untouched. -/
def connect (config : ConnectionConfig) (env : Env) (reg : Registry) :
    Except String Unit × Registry :=
  match connectPool config env with
  | .error e => (.error e, reg)
  | .ok pool => (.ok (), regInsert reg config.id pool)

/-- `ConnectionManager::disconnect` (lines 193–199): remove and drop the
handle, failing (with the map untouched) when the id is absent. -/
def disconnect (reg : Registry) (connectionId : String) :
    Except String Unit × Registry :=
  match regRemove reg connectionId with
  | (none, _) => (.error "Connection not found", reg)
  | (some _, reg2) => (.ok (), reg2)

/-! ## `test_connection` (lines 201–299)

The probe pool's lifecycle is traced: `.opened` when the engine accepted
the connection, `.closed` when `pool.close().await` ran.  An early return
through `?` drops the pool by scope exit without emitting `.closed`. -/

/-- Probe-pool lifecycle events of `test_connection`. -/
inductive ProbeEvent where
  | opened
  | closed
deriving DecidableEq, Repr

/-- `models/mod.rs` `ConnectionTestResult`. -/
structure ConnectionTestResult where
  success : Bool
  latency_ms : Nat
  db_version : String
  error : Option String
deriving DecidableEq, Repr

/-- `str::split_whitespace`, modelled over Unicode whitespace characters. -/
def splitWhitespaceWords (s : String) : List String :=
  (s.split Char.isWhitespace).filter (fun t => t ≠ "")

/-- `ConnectionManager::test_connection`: an associated function without
`&self` — it has no access to the connection map at all.  Each engine arm
opens a short-lived pool, runs the version query, and closes the pool; a
failed open is reported as an unsuccessful result, while a failed version
query propagates through `?` before `pool.close()` is reached. -/
def test_connection (config : ConnectionConfig) (env : Env) :
    Except String ConnectionTestResult × List ProbeEvent :=
  match config.db_type with
  | .SQLite =>
    match config.file_path with
    | none => (.error "SQLite file path is required", [])
    | some path =>
      match env.openPool ("sqlite://" ++ path) with
      | .error e => (.ok ⟨false, 0, "", some e⟩, [])
      | .ok _ =>
        match env.fetchOne "SELECT sqlite_version()" with
        | .error e => (.error e, [.opened])
        | .ok row =>
          let version := (rowGetString row 0).getD "Unknown"
          (.ok ⟨true, env.latencyMs, "SQLite " ++ version, none⟩, [.opened, .closed])
  | .PostgreSQL =>
    match build_connection_string config with
    | .error e => (.error e, [])
    | .ok cs =>
      match env.openPool cs with
      | .error e => (.ok ⟨false, 0, "", some e⟩, [])
      | .ok _ =>
        match env.fetchOne "SELECT version()" with
        | .error e => (.error e, [.opened])
        | .ok row =>
          let version := (rowGetString row 0).getD "Unknown"
          let versionShort :=
            String.intercalate " " ((splitWhitespaceWords version).take 2)
          (.ok ⟨true, env.latencyMs, versionShort, none⟩, [.opened, .closed])
  | .MySQL =>
    match build_connection_string config with
    | .error e => (.error e, [])
    | .ok cs =>
      match env.openPool cs with
      | .error e => (.ok ⟨false, 0, "", some e⟩, [])
      | .ok _ =>
        match env.fetchOne "SELECT VERSION()" with
        | .error e => (.error e, [.opened])
        | .ok row =>
          let version := (rowGetString row 0).getD "Unknown"
          (.ok ⟨true, env.latencyMs, "MySQL " ++ version, none⟩, [.opened, .closed])

/-- `ConnectionManager::execute_query` (lines 502–526): look up the
handle, fetch all rows of the verbatim statement, and normalize them with
`process_rows!` (the three pool arms of the source differ only in the pool
the fetch targets and collapse here). -/
def execute_query (reg : Registry) (env : Env) (connectionId query : String) :
    Except String QueryResult :=
  match regGet reg connectionId with
  | none => .error "Connection not found"
  | some _ =>
    match env.fetchAll query with
    | .error e => .error e
    | .ok rows => .ok (process_rows rows)

/-! ## Plan steps (`models/mod.rs` `PlanStep`), mutual with their child list
so plain structural recursion is available. -/

mutual
/-- One node of a normalized execution plan. -/
inductive PlanStep where
  | mk (step_type : String) (table_name : Option String) (rows : Option Int)
       (cost : Option ℚ) (filter_condition : Option String)
       (index_used : Option String) (children : PlanStepList)

/-- The ordered child list of a plan step. -/
inductive PlanStepList where
  | nil
  | cons (head : PlanStep) (tail : PlanStepList)
end

/-- Field accessor. -/
def PlanStep.step_type : PlanStep → String
  | .mk t _ _ _ _ _ _ => t

/-- Field accessor. -/
def PlanStep.table_name : PlanStep → Option String
  | .mk _ tn _ _ _ _ _ => tn

/-- Field accessor. -/
def PlanStep.rows : PlanStep → Option Int
  | .mk _ _ r _ _ _ _ => r

/-- Field accessor. -/
def PlanStep.cost : PlanStep → Option ℚ
  | .mk _ _ _ c _ _ _ => c

/-- Field accessor. -/
def PlanStep.children : PlanStep → PlanStepList
  | .mk _ _ _ _ _ _ cs => cs

/-- Build a step list from a Lean list. -/
def PlanStepList.ofList : List PlanStep → PlanStepList
  | [] => .nil
  | s :: rest => .cons s (ofList rest)

/-- View a step list as a Lean list. -/
def PlanStepList.toList : PlanStepList → List PlanStep
  | .nil => []
  | .cons s rest => s :: toList rest

/-- `models/mod.rs` `ExecutionPlan`. -/
structure ExecutionPlan where
  query : String
  plan_steps : PlanStepList
  total_cost : Option ℚ
  execution_time_ms : Option ℚ
  recommendations : List String

/-! ## Substring containment (Rust `str::contains`) -/

/-- Whether `pat` starts the character list `s`. -/
def charsStartWith : List Char → List Char → Bool
  | [], _ => true
  | _ :: _, [] => false
  | a :: as, b :: bs => a = b && charsStartWith as bs

/-- Whether `pat` occurs contiguously in `s`. -/
def charsContain : List Char → List Char → Bool
  | s, pat =>
    charsStartWith pat s ||
      match s with
      | [] => false
      | _ :: rest => charsContain rest pat

/-- Rust `str::contains` on string patterns. -/
def strContainsSub (s pat : String) : Bool :=
  charsContain s.toList pat.toList

/-! ## Recommendation engine (`generate_recommendations`, lines 711–758) -/

/-- Rule 1 message: `format!("Consider adding an index to table '{}' to avoid sequential scan", table)`. -/
def seqScanMsg (table : String) : String :=
  "Consider adding an index to table '" ++ table ++ "' to avoid sequential scan"

/-- Rule 2 message: `format!("High row count ({}) detected. Consider adding WHERE clause to filter data", rows)`. -/
def highRowsMsg (rows : Int) : String :=
  "High row count (" ++ toString rows ++ ") detected. Consider adding WHERE clause to filter data"

/-- Rust `format!("{:.2}", cost)`, modelled by rounding the rational to two
decimals; no claim compares a rendered cost. -/
def fmt2 (q : ℚ) : String :=
  let n : Int := round (q * 100)
  let a := n.natAbs
  (if n < 0 then "-" else "") ++ toString (a / 100) ++ "." ++ pad2 (a % 100)

/-- Rule 3 message: `format!("High cost operation detected (cost: {:.2}). Review query optimization", cost)`. -/
def highCostMsg (cost : ℚ) : String :=
  "High cost operation detected (cost: " ++ fmt2 cost ++ "). Review query optimization"

/-- The fallback message pushed when no recommendation was collected. -/
def wellOptimizedMsg : String := "Query appears to be well optimized"

/-- `if !recommendations.contains(&rec) { recommendations.push(rec); }`. -/
def pushIfAbsent (acc : List String) (rec : String) : List String :=
  if rec ∈ acc then acc else acc ++ [rec]

/-- The `for step in plan_steps` loop of `generate_recommendations`, with
the accumulated `recommendations` vector threaded through.  Per step: the
three direct rules push unconditionally (no duplicate check), then the
recursive call on the children — which is the whole function, fallback
included — is merged entry by entry through the `contains` check.  The
recursive call is inlined here (its body is exactly the fallback wrapper
around this loop, see `generate_recommendations`) so that the recursion is
structural. -/
def genRecsGo : PlanStepList → List String → List String
  | .nil, acc => acc
  | .cons (.mk stepType tableName rows cost _filter _index children) tail, acc =>
    let acc1 :=
      if strContainsSub stepType "Seq Scan" || strContainsSub stepType "ALL" then
        match tableName with
        | some table => acc ++ [seqScanMsg table]
        | none => acc
      else acc
    let acc2 :=
      match rows with
      | some r => if r > 10000 then acc1 ++ [highRowsMsg r] else acc1
      | none => acc1
    let acc3 :=
      match cost with
      | some c => if c > 1000 then acc2 ++ [highCostMsg c] else acc2
      | none => acc2
    let childRecs := genRecsGo children []
    let childFull := if childRecs.isEmpty then [wellOptimizedMsg] else childRecs
    genRecsGo tail (childFull.foldl pushIfAbsent acc3)

/-- `ConnectionManager::generate_recommendations` (the `db_type` parameter
of the source is unused): run the step loop on an empty vector and fall
back to the well-optimized message when nothing was pushed. -/
def generate_recommendations (planSteps : PlanStepList) : List String :=
  let recs := genRecsGo planSteps []
  if recs.isEmpty then [wellOptimizedMsg] else recs

/-! ## Plan parsers (`parse_postgres_plan`, `parse_mysql_plan`) -/

/-- The non-recursive part of `parse_postgres_plan`: pull the six fields
from the node value (`Value::get` answers `None` on non-objects) and wrap
them, with the already-parsed children, into the single step the function
pushes. -/
def mkPostgresStep (plan : Json) (children : List PlanStep) : List PlanStep :=
  let stepType := ((plan.asObj.bind (fun o => o.get "Node Type")).bind Json.asStr).getD "Unknown"
  let tableName := (plan.asObj.bind (fun o => o.get "Relation Name")).bind Json.asStr
  let rows := (plan.asObj.bind (fun o => o.get "Plan Rows")).bind Json.asI64
  let cost := (plan.asObj.bind (fun o => o.get "Total Cost")).bind Json.asF64
  let filterCondition := (plan.asObj.bind (fun o => o.get "Filter")).bind Json.asStr
  let indexUsed := (plan.asObj.bind (fun o => o.get "Index Name")).bind Json.asStr
  [.mk stepType tableName rows cost filterCondition indexUsed (PlanStepList.ofList children)]

mutual
/-- `ConnectionManager::parse_postgres_plan` (lines 629–673): pull the six
fields from the node object and recurse into its `Plans` array; the source
returns `Ok` on every path, and the `Result` wrapper is dropped here.
The recursion into `plan.get("Plans").and_then(as_array)` is split over the
entry list so it is structural. -/
def parse_postgres_plan : Json → List PlanStep
  | .obj fields => mkPostgresStep (.obj fields) (parsePlansOfFields fields)
  | plan => mkPostgresStep plan []

/-- Look up the `Plans` key; when its value is an array, recurse into it
(`plan.get("Plans").and_then(|v| v.as_array())`). -/
def parsePlansOfFields : JsonFields → List PlanStep
  | .nil => []
  | .cons k v rest =>
    if k = "Plans" then
      match v with
      | .arr items => parsePostgresChildren items
      | _ => []
    else parsePlansOfFields rest

/-- The `for child_plan in plans` loop: `children.extend(parse(child)?)`. -/
def parsePostgresChildren : JsonList → List PlanStep
  | .nil => []
  | .cons child rest => parse_postgres_plan child ++ parsePostgresChildren rest
end

/-- `ConnectionManager::parse_mysql_plan` (lines 675–709): read only the
single `query_block.table` entry. -/
def parse_mysql_plan (plan : Json) : List PlanStep :=
  match plan.asObj.bind (fun o => o.get "query_block") with
  | none => []
  | some queryBlock =>
    match queryBlock.asObj.bind (fun o => o.get "table") with
    | none => []
    | some table =>
      let stepType := ((table.asObj.bind (fun o => o.get "access_type")).bind Json.asStr).getD "Unknown"
      let tableName := (table.asObj.bind (fun o => o.get "table_name")).bind Json.asStr
      let rows := (table.asObj.bind (fun o => o.get "rows_examined_per_scan")).bind Json.asI64
      let indexUsed := (table.asObj.bind (fun o => o.get "key")).bind Json.asStr
      [.mk stepType tableName rows none none indexUsed .nil]

/-- The one flat step the SQLite arm of `explain_query` pushes per returned
row (the detail column is read and discarded). -/
def sqlitePlanStep : PlanStep :=
  .mk "SQLite Plan" none none none none none .nil

/-- The `(pool, db_type)` dispatch of `explain_query`, producing the plan
steps and the optional total cost of the matching arm, or the type-mismatch
error when the handle's engine and the requested engine disagree. -/
def explainSteps (pool : DatabasePool) (env : Env) (query : String) (analyze : Bool)
    (dbType : DatabaseType) : Except String (PlanStepList × Option ℚ) :=
  match pool, dbType with
  | .postgres, .PostgreSQL =>
    let explainQ :=
      if analyze then "EXPLAIN (FORMAT JSON, ANALYZE true, BUFFERS true) " ++ query
      else "EXPLAIN (FORMAT JSON) " ++ query
    match env.fetchAll explainQ with
    | .error e => .error e
    | .ok [] => .error "No execution plan returned"
    | .ok (row0 :: _) =>
      match rowGetString row0 0 with
      | none => .error "column decode failed"
      | some planJson =>
        match env.parseJson planJson with
        | .error e => .error e
        | .ok parsed =>
          match parsed.asArr with
          | none => .error "Invalid plan format"
          | some .nil => .ok (.nil, none)
          | some (.cons firstPlan _) =>
            match firstPlan.asObj.bind (fun o => o.get "Plan") with
            | none => .error "No Plan field found"
            | some planObj =>
              let totalCost :=
                (planObj.asObj.bind (fun o => o.get "Total Cost")).bind Json.asF64
              .ok (PlanStepList.ofList (parse_postgres_plan planObj), totalCost)
  | .mysql, .MySQL =>
    match env.fetchAll ("EXPLAIN FORMAT=JSON " ++ query) with
    | .error e => .error e
    | .ok [] => .error "No execution plan returned"
    | .ok (row0 :: _) =>
      match rowGetString row0 0 with
      | none => .error "column decode failed"
      | some planJson =>
        match env.parseJson planJson with
        | .error e => .error e
        | .ok parsed => .ok (PlanStepList.ofList (parse_mysql_plan parsed), none)
  | .sqlite, .SQLite =>
    match env.fetchAll ("EXPLAIN QUERY PLAN " ++ query) with
    | .error e => .error e
    | .ok rows =>
      .ok (PlanStepList.ofList (rows.map (fun _ => sqlitePlanStep)), none)
  | _, _ => .error "Database type mismatch"

/-- `ConnectionManager::explain_query` (lines 528–627): look up the handle,
run the engine dispatch `explainSteps`, record elapsed wall time only under
`analyze`, and generate recommendations from the steps. -/
def explain_query (reg : Registry) (env : Env) (connectionId query : String)
    (analyze : Bool) (dbType : DatabaseType) : Except String ExecutionPlan :=
  match regGet reg connectionId with
  | none => .error "Connection not found"
  | some pool =>
    match explainSteps pool env query analyze dbType with
    | .error e => .error e
    | .ok (planSteps, totalCost) =>
      .ok { query := query
            plan_steps := planSteps
            total_cost := totalCost
            execution_time_ms := if analyze then some env.elapsedMs else none
            recommendations := generate_recommendations planSteps }

/-! ## Row mutation helpers (string-composed SQL)

Each operation returns its result together with the list of SQL statements
actually submitted to the engine (through `execute_query!`), so "no
statement was executed" is provable.  A statement is in the trace exactly
when the code reached the `execute_query!` call with it. -/

/-- The value rendering shared by `insert_row`, `bulk_insert_rows` and
`update_row`: `NULL` for null, single-quoted with doubled single quotes
for strings, `v.to_string()` otherwise. -/
def sqlValue (v : Json) : String :=
  match v with
  | .null => "NULL"
  | .str s => "'" ++ doubleQuotes s ++ "'"
  | v => v.render

/-- `ConnectionManager::insert_row` (lines 760–799). -/
def insert_row (reg : Registry) (env : Env) (connectionId tableName : String)
    (data : Json) (_dbType : DatabaseType) : Except String String × List String :=
  match regGet reg connectionId with
  | none => (.error "Connection not found", [])
  | some _ =>
    match data.asObj with
    | none => (.error "Data must be a JSON object", [])
    | some obj =>
      let columnList := String.intercalate ", " obj.keys
      let valueList := String.intercalate ", " (obj.values.map sqlValue)
      let query := "INSERT INTO " ++ tableName ++ " (" ++ columnList ++ ") VALUES (" ++ valueList ++ ")"
      match env.execute query with
      | .error e => (.error e, [query])
      | .ok _ => (.ok ("Successfully inserted 1 row into " ++ tableName), [query])

/-- The `for row in &rows` loop of `bulk_insert_rows`: each row must be an
object; its values are read through the first row's column list, with a
missing key becoming `Value::Null` and hence `NULL`. -/
def buildValueLists (columns : List String) : List Json → Except String (List String)
  | [] => .ok []
  | r :: rs =>
    match r.asObj with
    | none => .error "Row data must be a JSON object"
    | some obj =>
      let values := columns.map (fun col => sqlValue ((obj.get col).getD .null))
      match buildValueLists columns rs with
      | .error e => .error e
      | .ok tl => .ok (("(" ++ String.intercalate ", " values ++ ")") :: tl)

/-- `ConnectionManager::bulk_insert_rows` (lines 801–857): the empty input
list returns a success message before the registry is consulted; otherwise
the column list comes from the first row only and a single multi-row
`INSERT` is submitted. -/
def bulk_insert_rows (reg : Registry) (env : Env) (connectionId tableName : String)
    (rows : List Json) (_dbType : DatabaseType) : Except String String × List String :=
  match rows with
  | [] => (.ok "No rows to insert", [])
  | first :: rest =>
    match regGet reg connectionId with
    | none => (.error "Connection not found", [])
    | some _ =>
      match first.asObj with
      | none => (.error "Row data must be a JSON object", [])
      | some firstObj =>
        let columns := firstObj.keys
        match buildValueLists columns (first :: rest) with
        | .error e => (.error e, [])
        | .ok valueLists =>
          let query := "INSERT INTO " ++ tableName ++ " (" ++ String.intercalate ", " columns
            ++ ") VALUES " ++ String.intercalate ", " valueLists
          match env.execute query with
          | .error e => (.error e, [query])
          | .ok _ =>
            (.ok ("Successfully inserted " ++ toString (rest.length + 1) ++ " rows into " ++ tableName),
             [query])

/-- `ConnectionManager::update_row` (lines 859–897). -/
def update_row (reg : Registry) (env : Env) (connectionId tableName : String)
    (data : Json) (whereClause : String) (_dbType : DatabaseType) :
    Except String String × List String :=
  match regGet reg connectionId with
  | none => (.error "Connection not found", [])
  | some _ =>
    match data.asObj with
    | none => (.error "Data must be a JSON object", [])
    | some obj =>
      let setClauses := obj.keys.zip obj.values |>.map (fun kv =>
        match kv.2 with
        | .null => kv.1 ++ " = NULL"
        | .str s => kv.1 ++ " = '" ++ doubleQuotes s ++ "'"
        | v => kv.1 ++ " = " ++ v.render)
      let query := "UPDATE " ++ tableName ++ " SET " ++ String.intercalate ", " setClauses
        ++ " WHERE " ++ whereClause
      match env.execute query with
      | .error e => (.error e, [query])
      | .ok n => (.ok ("Successfully updated " ++ toString n ++ " row(s)"), [query])

/-- `ConnectionManager::delete_rows` (lines 899–918). -/
def delete_rows (reg : Registry) (env : Env) (connectionId tableName whereClause : String) :
    Except String String × List String :=
  match regGet reg connectionId with
  | none => (.error "Connection not found", [])
  | some _ =>
    let query := "DELETE FROM " ++ tableName ++ " WHERE " ++ whereClause
    match env.execute query with
    | .error e => (.error e, [query])
    | .ok n => (.ok ("Successfully deleted " ++ toString n ++ " row(s)"), [query])

/-- The column-definition loop of `create_table`: `name type`, `NOT NULL`
when not nullable, primary-key names collected aside. -/
def createTableColumnDefs (columns : List (String × String × Bool × Bool)) :
    List String × List String :=
  columns.foldl
    (fun acc col =>
      let colDef := col.1 ++ " " ++ col.2.1 ++ (if col.2.2.1 then "" else " NOT NULL")
      (acc.1 ++ [colDef], if col.2.2.2 then acc.2 ++ [col.1] else acc.2))
    ([], [])

/-- `ConnectionManager::create_table` (lines 920–962). -/
def create_table (reg : Registry) (env : Env) (connectionId tableName : String)
    (columns : List (String × String × Bool × Bool)) (_dbType : DatabaseType) :
    Except String String × List String :=
  match regGet reg connectionId with
  | none => (.error "Connection not found", [])
  | some _ =>
    let defsPks := createTableColumnDefs columns
    let columnDefs :=
      if defsPks.2.isEmpty then defsPks.1
      else defsPks.1 ++ ["PRIMARY KEY (" ++ String.intercalate ", " defsPks.2 ++ ")"]
    let query := "CREATE TABLE " ++ tableName ++ " (" ++ String.intercalate ", " columnDefs ++ ")"
    match env.execute query with
    | .error e => (.error e, [query])
    | .ok _ => (.ok ("Successfully created table " ++ tableName), [query])

/-- `ConnectionManager::drop_table` (lines 964–979). -/
def drop_table (reg : Registry) (env : Env) (connectionId tableName : String) :
    Except String String × List String :=
  match regGet reg connectionId with
  | none => (.error "Connection not found", [])
  | some _ =>
    let query := "DROP TABLE " ++ tableName
    match env.execute query with
    | .error e => (.error e, [query])
    | .ok _ => (.ok ("Successfully dropped table " ++ tableName), [query])

/-- `ConnectionManager::alter_table_add_column` (lines 981–1011): SQLite
omits the `NOT NULL` clause, the network engines append it when the column
is not nullable. -/
def alter_table_add_column (reg : Registry) (env : Env)
    (connectionId tableName columnName dataType : String) (nullable : Bool)
    (dbType : DatabaseType) : Except String String × List String :=
  match regGet reg connectionId with
  | none => (.error "Connection not found", [])
  | some _ =>
    let nullableClause := if nullable then "" else " NOT NULL"
    let query :=
      match dbType with
      | .SQLite => "ALTER TABLE " ++ tableName ++ " ADD COLUMN " ++ columnName ++ " " ++ dataType
      | _ => "ALTER TABLE " ++ tableName ++ " ADD COLUMN " ++ columnName ++ " " ++ dataType
          ++ nullableClause
    match env.execute query with
    | .error e => (.error e, [query])
    | .ok _ => (.ok ("Successfully added column " ++ columnName ++ " to " ++ tableName), [query])

/-- `ConnectionManager::alter_table_drop_column` (lines 1013–1038): for
SQLite, return the unsupported-operation error before any statement is
built or submitted; otherwise submit the `DROP COLUMN` DDL. -/
def alter_table_drop_column (reg : Registry) (env : Env)
    (connectionId tableName columnName : String) (dbType : DatabaseType) :
    Except String String × List String :=
  match regGet reg connectionId with
  | none => (.error "Connection not found", [])
  | some _ =>
    match dbType with
    | .SQLite =>
      (.error "SQLite does not support dropping columns directly. Please recreate the table.", [])
    | _ =>
      let query := "ALTER TABLE " ++ tableName ++ " DROP COLUMN " ++ columnName
      match env.execute query with
      | .error e => (.error e, [query])
      | .ok _ =>
        (.ok ("Successfully dropped column " ++ columnName ++ " from " ++ tableName), [query])

/-- `ConnectionManager::rename_table` (lines 1040–1061). -/
def rename_table (reg : Registry) (env : Env) (connectionId oldName newName : String)
    (dbType : DatabaseType) : Except String String × List String :=
  match regGet reg connectionId with
  | none => (.error "Connection not found", [])
  | some _ =>
    let query :=
      match dbType with
      | .SQLite => "ALTER TABLE " ++ oldName ++ " RENAME TO " ++ newName
      | .MySQL => "RENAME TABLE " ++ oldName ++ " TO " ++ newName
      | .PostgreSQL => "ALTER TABLE " ++ oldName ++ " RENAME TO " ++ newName
    match env.execute query with
    | .error e => (.error e, [query])
    | .ok _ => (.ok ("Successfully renamed table " ++ oldName ++ " to " ++ newName), [query])

/-! ## Introspection operations -/

/-- `models/mod.rs` `DatabaseTable`. -/
structure DatabaseTable where
  name : String
  schema : Option String
  row_count : Option Int
  size_kb : Option Int
  table_type : Option String
deriving DecidableEq, Repr

/-- `models/mod.rs` `TableColumn`. -/
structure TableColumn where
  name : String
  data_type : String
  is_nullable : Bool
  default_value : Option String
  is_primary_key : Bool
deriving DecidableEq, Repr

/-- Rust `as i64` on an `f64` (truncation toward zero, in range). -/
def ratTruncToInt (q : ℚ) : Int := q.num / (q.den : Int)

/-- The Postgres catalog query of `list_tables` (raw string literal,
whitespace transcribed from the source). -/
def listTablesPgQuery : String :=
  "\n                    SELECT \n                        t.table_name,\n"
  ++ "                        t.table_type,\n"
  ++ "                        pg_stat.n_live_tup as row_count,\n"
  ++ "                        pg_total_relation_size(quote_ident(t.table_schema)||'.'||quote_ident(t.table_name))::bigint / 1024 as size_kb\n"
  ++ "                    FROM information_schema.tables t\n"
  ++ "                    LEFT JOIN pg_stat_user_tables pg_stat ON pg_stat.relname = t.table_name\n"
  ++ "                    WHERE t.table_schema = 'public'\n"
  ++ "                    ORDER BY t.table_name\n                "

/-- The MySQL catalog query of `list_tables` (raw string literal,
whitespace transcribed from the source). -/
def listTablesMyQuery : String :=
  "\n                    SELECT \n                        table_name,\n"
  ++ "                        table_type,\n"
  ++ "                        table_rows,\n"
  ++ "                        ROUND((data_length + index_length) / 1024, 0) as size_kb\n"
  ++ "                    FROM information_schema.tables \n"
  ++ "                    WHERE table_schema = DATABASE()\n"
  ++ "                    ORDER BY table_name\n                "

/-- The SQLite per-table body of `list_tables`: a live `COUNT(*)` for
tables (not views), absorbed into `None` on any failure. -/
def sqliteTableEntry (env : Env) (row : Row) : DatabaseTable :=
  let name := (rowGetString row 0).getD ""
  let tableType := (rowGetString row 1).getD ""
  let rowCount :=
    if tableType = "table" then
      (env.fetchOne ("SELECT COUNT(*) FROM \"" ++ name ++ "\"")).toOption.bind
        (fun r => rowGetI64 r 0)
    else none
  ⟨name, none, rowCount, none, some tableType.toUpper⟩

/-- `ConnectionManager::list_tables` (lines 301–404); the `_db_type`
parameter of the source is unused — dispatch is on the pool variant. -/
def list_tables (reg : Registry) (env : Env) (connectionId : String)
    (_dbType : DatabaseType) : Except String (List DatabaseTable) :=
  match regGet reg connectionId with
  | none => .error "Connection not found"
  | some pool =>
    match pool with
    | .sqlite =>
      match env.fetchAll "SELECT name, type FROM sqlite_master WHERE type IN ('table', 'view') AND name NOT LIKE 'sqlite_%' ORDER BY name" with
      | .error e => .error e
      | .ok rows => .ok (rows.map (sqliteTableEntry env))
    | .postgres =>
      match env.fetchAll listTablesPgQuery with
      | .error e => .error e
      | .ok rows =>
        .ok (rows.map (fun row =>
          ⟨(rowGetString row 0).getD "", some "public", rowGetI64 row 2, rowGetI64 row 3,
           some ((rowGetString row 1).getD "").toUpper⟩))
    | .mysql =>
      match env.fetchAll listTablesMyQuery with
      | .error e => .error e
      | .ok rows =>
        .ok (rows.map (fun row =>
          ⟨(rowGetString row 0).getD "", none, rowGetI64 row 2,
           (rowGetF64 row 3).map ratTruncToInt, some ((rowGetString row 1).getD "")⟩))

/-- The introspection query `get_table_structure` builds per engine kind
(the Rust line-continuation backslashes make each a single line). -/
def tableStructureQuery (tableName : String) : DatabaseType → String
  | .SQLite => "PRAGMA table_info(" ++ tableName ++ ")"
  | .PostgreSQL =>
    "SELECT column_name, data_type, is_nullable, column_default FROM information_schema.columns WHERE table_name = '"
      ++ tableName ++ "' ORDER BY ordinal_position"
  | .MySQL =>
    "SELECT COLUMN_NAME, DATA_TYPE, IS_NULLABLE, COLUMN_DEFAULT FROM information_schema.columns WHERE table_name = '"
      ++ tableName ++ "' AND table_schema = DATABASE() ORDER BY ORDINAL_POSITION"

/-- `ConnectionManager::get_table_structure` (lines 406–500): the query is
chosen by the `db_type` argument, the row decoding by the pool variant. -/
def get_table_structure (reg : Registry) (env : Env) (connectionId tableName : String)
    (dbType : DatabaseType) : Except String (List TableColumn) :=
  match regGet reg connectionId with
  | none => .error "Connection not found"
  | some pool =>
    let query := tableStructureQuery tableName dbType
    match env.fetchAll query with
    | .error e => .error e
    | .ok rows =>
      match pool with
      | .sqlite =>
        .ok (rows.map (fun row =>
          { name := (rowGetString row 1).getD ""
            data_type := (rowGetString row 2).getD ""
            is_nullable := (rowGetI64 row 3).getD 0 = 0
            default_value := rowGetString row 4
            is_primary_key := (rowGetI64 row 5).getD 0 > 0 }))
      | .postgres =>
        .ok (rows.map (fun row =>
          { name := (rowGetString row 0).getD ""
            data_type := (rowGetString row 1).getD ""
            is_nullable := ((rowGetString row 2).getD "").toUpper = "YES"
            default_value := rowGetString row 3
            is_primary_key := false }))
      | .mysql =>
        .ok (rows.map (fun row =>
          { name := (rowGetString row 0).getD ""
            data_type := (rowGetString row 1).getD ""
            is_nullable := ((rowGetString row 2).getD "").toUpper = "YES"
            default_value := rowGetString row 3
            is_primary_key := false }))

/-- `ConnectionManager::get_primary_keys` (lines 1133–1193). -/
def get_primary_keys (pool : DatabasePool) (env : Env) (tableName : String)
    (dbType : DatabaseType) : Except String (List String) :=
  let query :=
    match dbType with
    | .SQLite => "PRAGMA table_info(" ++ tableName ++ ")"
    | .PostgreSQL =>
      "SELECT a.attname FROM pg_index i JOIN pg_attribute a ON a.attrelid = i.indrelid AND a.attnum = ANY(i.indkey) WHERE i.indrelid = '"
        ++ tableName ++ "'::regclass AND i.indisprimary"
    | .MySQL =>
      "SELECT COLUMN_NAME FROM information_schema.KEY_COLUMN_USAGE WHERE TABLE_NAME = '"
        ++ tableName ++ "' AND TABLE_SCHEMA = DATABASE() AND CONSTRAINT_NAME = 'PRIMARY' ORDER BY ORDINAL_POSITION"
  match env.fetchAll query with
  | .error e => .error e
  | .ok rows =>
    match pool with
    | .sqlite =>
      .ok (rows.filterMap (fun row =>
        if (rowGetI64 row 5).getD 0 > 0 then some ((rowGetString row 1).getD "") else none))
    | .postgres => .ok (rows.map (fun row => (rowGetString row 0).getD ""))
    | .mysql => .ok (rows.map (fun row => (rowGetString row 0).getD ""))

/-- The SQLite per-index body of `get_indexes`: a nested
`PRAGMA index_info` fetch whose failure propagates through `?`; indexes
with no columns are skipped. -/
def sqliteIndexSqls (env : Env) (tableName : String) : List Row → Except String (List String)
  | [] => .ok []
  | row :: rest =>
    let indexName := (rowGetString row 1).getD ""
    let isUnique := (rowGetI64 row 2).getD 0
    match env.fetchAll ("PRAGMA index_info(" ++ indexName ++ ")") with
    | .error e => .error e
    | .ok infoRows =>
      let columns := infoRows.map (fun r => (rowGetString r 2).getD "")
      match sqliteIndexSqls env tableName rest with
      | .error e => .error e
      | .ok tl =>
        if columns.isEmpty then .ok tl
        else
          .ok (("CREATE " ++ (if isUnique = 1 then "UNIQUE " else "") ++ "INDEX " ++ indexName
            ++ " ON " ++ tableName ++ " (" ++ String.intercalate ", " columns ++ ")") :: tl)

/-- The MySQL grouping of `get_indexes`: rows are grouped by index name
into a `HashMap<String, Vec<String>>`; the map's iteration order is
unspecified in Rust and modelled as first-occurrence order. -/
def groupIndexColumns (rows : List Row) : List (String × List String) :=
  rows.foldl
    (fun acc row =>
      let indexName := (rowGetString row 0).getD ""
      let columnName := (rowGetString row 1).getD ""
      if acc.any (fun p => p.1 = indexName) then
        acc.map (fun p => if p.1 = indexName then (p.1, p.2 ++ [columnName]) else p)
      else acc ++ [(indexName, [columnName])])
    []

/-- `ConnectionManager::get_indexes` (lines 1195–1292). -/
def get_indexes (pool : DatabasePool) (env : Env) (tableName : String)
    (dbType : DatabaseType) : Except String (List String) :=
  let query :=
    match dbType with
    | .SQLite => "PRAGMA index_list(" ++ tableName ++ ")"
    | .PostgreSQL =>
      "SELECT indexname, indexdef FROM pg_indexes WHERE tablename = '" ++ tableName
        ++ "' AND indexname NOT LIKE '%_pkey'"
    | .MySQL =>
      "SELECT DISTINCT INDEX_NAME, COLUMN_NAME FROM information_schema.STATISTICS WHERE TABLE_NAME = '"
        ++ tableName ++ "' AND TABLE_SCHEMA = DATABASE() AND INDEX_NAME != 'PRIMARY' ORDER BY INDEX_NAME, SEQ_IN_INDEX"
  match env.fetchAll query with
  | .error e => .error e
  | .ok rows =>
    match pool with
    | .sqlite => sqliteIndexSqls env tableName rows
    | .postgres => .ok (rows.map (fun row => (rowGetString row 1).getD ""))
    | .mysql =>
      .ok ((groupIndexColumns rows).map (fun p =>
        "CREATE INDEX " ++ p.1 ++ " ON " ++ tableName ++ " (" ++ String.intercalate ", " p.2 ++ ")"))

/-- The per-column lines of the exported `CREATE TABLE`: every column but
the last gets a trailing comma, as does the last one when a primary-key
constraint follows. -/
def exportColumnLines (pksNonempty : Bool) : List TableColumn → String
  | [] => ""
  | col :: rest =>
    "  " ++ col.name ++ " " ++ col.data_type
      ++ (if col.is_nullable then "" else " NOT NULL")
      ++ (match col.default_value with
          | some d => if d ≠ "" then " DEFAULT " ++ d else ""
          | none => "")
      ++ (if rest ≠ [] ∨ pksNonempty then "," else "")
      ++ "\n"
      ++ exportColumnLines pksNonempty rest

/-- `ConnectionManager::export_table_structure` (lines 1063–1131). -/
def export_table_structure (reg : Registry) (env : Env) (connectionId tableName : String)
    (dbType : DatabaseType) : Except String String :=
  match regGet reg connectionId with
  | none => .error "Connection not found"
  | some pool =>
    match get_table_structure reg env connectionId tableName dbType with
    | .error e => .error e
    | .ok columns =>
      if columns.isEmpty then .error "Table has no columns or does not exist"
      else
        match get_primary_keys pool env tableName dbType with
        | .error e => .error e
        | .ok primaryKeys =>
          match get_indexes pool env tableName dbType with
          | .error e => .error e
          | .ok indexes =>
            let sql := "CREATE TABLE " ++ tableName ++ " (\n"
              ++ exportColumnLines (¬ primaryKeys.isEmpty) columns
              ++ (if primaryKeys.isEmpty then ""
                  else "  PRIMARY KEY (" ++ String.intercalate ", " primaryKeys ++ ")\n")
              ++ ");\n"
              ++ String.join (indexes.map (fun idx => "\n" ++ idx ++ ";"))
            .ok sql

/-! ## The SSH tunnel forwarder (`ssh_tunnel.rs`, `SshTunnel::connect`)

The transport library is the environment; the trace records which external
actions `connect` performed, in order. -/

/-- Externally visible actions of `SshTunnel::connect`. -/
inductive TunnelEvent where
  | tcpConnect
  | handshake
  | authPassword
  | authKey
  | bindLocalPort
  | spawnWorker
deriving DecidableEq, Repr

/-- Outcomes of the transport-library calls `connect` makes. -/
structure SshEnv where
  tcpConnect : Except String Unit
  sessionNew : Except String Unit
  handshake : Except String Unit
  authPassword : String → String → Except String Unit
  authKey : String → String → Except String Unit
  authenticated : Bool
  bindLocal : Except String Nat

/-- `SshTunnel::connect` (lines 18–107 of `ssh_tunnel.rs`): TCP connect,
session creation, handshake; then password authentication when a password
is given, else key authentication when a key path is given, else the
missing-method error; then the `authenticated()` check, the local bind
(`local_addr()` folded into its success value), and the worker spawn.
The result is the bound local port. -/
def sshTunnelConnect (env : SshEnv) (_sshHost : String) (_sshPort : Nat)
    (sshUsername : String) (sshPassword : Option String)
    (sshPrivateKeyPath : Option String) (_remoteHost : String) (_remotePort : Nat) :
    Except String Nat × List TunnelEvent :=
  match env.tcpConnect with
  | .error e => (.error ("Failed to connect to SSH server: " ++ e), [.tcpConnect])
  | .ok _ =>
    match env.sessionNew with
    | .error e => (.error ("Failed to create SSH session: " ++ e), [.tcpConnect])
    | .ok _ =>
      match env.handshake with
      | .error e => (.error ("SSH handshake failed: " ++ e), [.tcpConnect, .handshake])
      | .ok _ =>
        let authStep : Except String Unit × List TunnelEvent :=
          match sshPassword with
          | some password =>
            match env.authPassword sshUsername password with
            | .error e => (.error ("SSH password authentication failed: " ++ e), [.authPassword])
            | .ok _ => (.ok (), [.authPassword])
          | none =>
            match sshPrivateKeyPath with
            | some keyPath =>
              match env.authKey sshUsername keyPath with
              | .error e => (.error ("SSH key authentication failed: " ++ e), [.authKey])
              | .ok _ => (.ok (), [.authKey])
            | none => (.error "No SSH authentication method provided", [])
        match authStep with
        | (.error e, evs) => (.error e, [.tcpConnect, .handshake] ++ evs)
        | (.ok _, evs) =>
          if env.authenticated = false then
            (.error "SSH authentication failed", [.tcpConnect, .handshake] ++ evs)
          else
            match env.bindLocal with
            | .error e =>
              (.error ("Failed to bind local port: " ++ e),
               [.tcpConnect, .handshake] ++ evs ++ [.bindLocalPort])
            | .ok port =>
              (.ok port, [.tcpConnect, .handshake] ++ evs ++ [.bindLocalPort, .spawnWorker])

/-! ## Spec-side description of the bulk INSERT (for the refinement claim C5)

These definitions follow the words of the spec/claim — column list from the
first row only, later rows' missing keys as SQL `NULL`, strings escaped
only by doubling single quotes, one multi-row `INSERT` — and are compared
with the transcription `bulk_insert_rows`. -/

/-- Spec: "String values are escaped by doubling single quotes; no other
escaping … is applied". -/
def specEscape (s : String) : String := doubleQuotes s

/-- Spec: render one value — SQL `NULL` for null (and for a missing key),
the escaped quoted form for strings, the JSON serialization otherwise. -/
def specRenderValue : Json → String
  | .null => "NULL"
  | .str s => "'" ++ specEscape s ++ "'"
  | v => v.render

/-- Spec: the parenthesized value tuple of one row, read through the first
row's column list, with a missing key treated as SQL `NULL`. -/
def specRowTuple (columns : List String) (obj : JsonFields) : String :=
  "(" ++ String.intercalate ", " (columns.map (fun c => specRenderValue ((obj.get c).getD .null))) ++ ")"

/-- Spec: the single multi-row `INSERT` statement for a non-empty list of
row objects, columns derived from the first row only. -/
def specBulkInsertStatement (tableName : String) (objs : List JsonFields) : Option String :=
  match objs with
  | [] => none
  | first :: _ =>
    some ("INSERT INTO " ++ tableName ++ " (" ++ String.intercalate ", " first.keys
      ++ ") VALUES " ++ String.intercalate ", " (objs.map (specRowTuple first.keys)))

/-! # Theorems -/

/-! ## C1 — the dialect value decoder -/

/-- On the text-like names the decoder takes the string decode. -/
theorem decode_text_eq {name : String} (r : RawValue) (h : name ∈ textTypeNames) :
    decode name r = match r.getString with | some s => .str s | none => .null := by
  fin_cases h <;> rfl

/-- On the integer-like names the decoder takes the `i64` decode. -/
theorem decode_int_eq {name : String} (r : RawValue) (h : name ∈ intTypeNames) :
    decode name r = match r.getI64 with | some n => .int n | none => .null := by
  fin_cases h <;> rfl

/-- On the floating names the decoder takes the `f64` decode. -/
theorem decode_float_eq {name : String} (r : RawValue) (h : name ∈ floatTypeNames) :
    decode name r = match r.getF64 with | some q => .float q | none => .null := by
  fin_cases h <;> rfl

/-- On the boolean names the decoder takes the boolean decode. -/
theorem decode_bool_eq {name : String} (r : RawValue) (h : name ∈ boolTypeNames) :
    decode name r = match r.getBool with | some b => .bool b | none => .null := by
  fin_cases h <;> rfl

/-- On every name outside the match arms the decoder falls back to the
string decode. -/
theorem decode_fallback_eq {name : String} (r : RawValue)
    (h1 : name ∉ textTypeNames) (h2 : name ∉ intTypeNames)
    (h3 : name ∉ floatTypeNames) (h4 : name ∉ boolTypeNames)
    (h5 : ¬(name = "DATETIME" ∨ name = "TIMESTAMP")) (h6 : name ≠ "TIMESTAMPTZ")
    (h7 : name ≠ "DATE") (h8 : name ≠ "TIME") :
    decode name r = match r.getString with | some s => .str s | none => .null := by
  simp only [decode, if_neg h1, if_neg h2, if_neg h3, if_neg h4, if_neg h5, if_neg h6,
    if_neg h7, if_neg h8]

/-- C1 (amended): the decoder matches the engine type name
case-sensitively, against the exact names of the match arms.  For each
supported name it returns the documented target kind when the typed decode
succeeds and null exactly when it fails (the `TIMESTAMPTZ` arm falls back
to the zone-naive decode first); every unrecognized name — including a
supported name in different case — takes the attempted string decode, null
on failure.  `decode` is a total function, so no input raises. -/
theorem C1_decode_case_sensitive_kinds (name : String) (r : RawValue) :
    (name ∈ textTypeNames →
      (∃ s, r.getString = some s ∧ decode name r = .str s) ∨
      (r.getString = none ∧ decode name r = .null)) ∧
    (name ∈ intTypeNames →
      (∃ n, r.getI64 = some n ∧ decode name r = .int n) ∨
      (r.getI64 = none ∧ decode name r = .null)) ∧
    (name ∈ floatTypeNames →
      (∃ q, r.getF64 = some q ∧ decode name r = .float q) ∨
      (r.getF64 = none ∧ decode name r = .null)) ∧
    (name ∈ boolTypeNames →
      (∃ b, r.getBool = some b ∧ decode name r = .bool b) ∨
      (r.getBool = none ∧ decode name r = .null)) ∧
    ((name = "DATETIME" ∨ name = "TIMESTAMP") →
      (∃ v, r.getNaiveDateTime = some v ∧ decode name r = .str (format_date_time v)) ∨
      (r.getNaiveDateTime = none ∧ decode name r = .null)) ∧
    (name = "TIMESTAMPTZ" →
      (∃ v, r.getUtcDateTime = some v ∧ decode name r = .str (format_date_time v ++ " UTC")) ∨
      (r.getUtcDateTime = none ∧
        ∃ v, r.getNaiveDateTime = some v ∧ decode name r = .str (format_date_time v)) ∨
      (r.getUtcDateTime = none ∧ r.getNaiveDateTime = none ∧ decode name r = .null)) ∧
    (name = "DATE" →
      (∃ v, r.getNaiveDate = some v ∧ decode name r = .str (format_date v)) ∨
      (r.getNaiveDate = none ∧ decode name r = .null)) ∧
    (name = "TIME" →
      (∃ v, r.getNaiveTime = some v ∧ decode name r = .str (format_time v)) ∨
      (r.getNaiveTime = none ∧ decode name r = .null)) ∧
    (name ∉ textTypeNames → name ∉ intTypeNames → name ∉ floatTypeNames →
      name ∉ boolTypeNames → name ≠ "DATETIME" → name ≠ "TIMESTAMP" →
      name ≠ "TIMESTAMPTZ" → name ≠ "DATE" → name ≠ "TIME" →
      (∃ s, r.getString = some s ∧ decode name r = .str s) ∨
      (r.getString = none ∧ decode name r = .null)) := by
  refine ⟨?_, ?_, ?_, ?_, ?_, ?_, ?_, ?_, ?_⟩
  · intro h
    rw [decode_text_eq r h]
    cases r.getString with
    | none => exact Or.inr ⟨rfl, rfl⟩
    | some s => exact Or.inl ⟨s, rfl, rfl⟩
  · intro h
    rw [decode_int_eq r h]
    cases r.getI64 with
    | none => exact Or.inr ⟨rfl, rfl⟩
    | some n => exact Or.inl ⟨n, rfl, rfl⟩
  · intro h
    rw [decode_float_eq r h]
    cases r.getF64 with
    | none => exact Or.inr ⟨rfl, rfl⟩
    | some q => exact Or.inl ⟨q, rfl, rfl⟩
  · intro h
    rw [decode_bool_eq r h]
    cases r.getBool with
    | none => exact Or.inr ⟨rfl, rfl⟩
    | some b => exact Or.inl ⟨b, rfl, rfl⟩
  · intro h
    have hd : decode name r =
        match r.getNaiveDateTime with
        | some v => .str (format_date_time v)
        | none => .null := by
      rcases h with rfl | rfl <;> rfl
    rw [hd]
    cases r.getNaiveDateTime with
    | none => exact Or.inr ⟨rfl, rfl⟩
    | some v => exact Or.inl ⟨v, rfl, rfl⟩
  · rintro rfl
    show (∃ v, r.getUtcDateTime = some v ∧
          decode "TIMESTAMPTZ" r = .str (format_date_time v ++ " UTC")) ∨ _
    have hd : decode "TIMESTAMPTZ" r =
        match r.getUtcDateTime with
        | some v => .str (format_date_time v ++ " UTC")
        | none =>
          match r.getNaiveDateTime with
          | some v => .str (format_date_time v)
          | none => .null := rfl
    rw [hd]
    cases r.getUtcDateTime with
    | some v => exact Or.inl ⟨v, rfl, rfl⟩
    | none =>
      cases r.getNaiveDateTime with
      | some v => exact Or.inr (Or.inl ⟨rfl, v, rfl, rfl⟩)
      | none => exact Or.inr (Or.inr ⟨rfl, rfl, rfl⟩)
  · rintro rfl
    have hd : decode "DATE" r =
        match r.getNaiveDate with
        | some v => .str (format_date v)
        | none => .null := rfl
    rw [hd]
    cases r.getNaiveDate with
    | none => exact Or.inr ⟨rfl, rfl⟩
    | some v => exact Or.inl ⟨v, rfl, rfl⟩
  · rintro rfl
    have hd : decode "TIME" r =
        match r.getNaiveTime with
        | some v => .str (format_time v)
        | none => .null := rfl
    rw [hd]
    cases r.getNaiveTime with
    | none => exact Or.inr ⟨rfl, rfl⟩
    | some v => exact Or.inl ⟨v, rfl, rfl⟩
  · intro h1 h2 h3 h4 h5 h6 h7 h8 h9
    rw [decode_fallback_eq r h1 h2 h3 h4 (by rintro (rfl | rfl) <;> simp_all) h7 h8 h9]
    cases r.getString with
    | none => exact Or.inr ⟨rfl, rfl⟩
    | some s => exact Or.inl ⟨s, rfl, rfl⟩

/-- A raw value whose only successful typed decode is the `i64` one. -/
def rawIntOnly : RawValue := ⟨none, some 5, none, none, none, none, none, none⟩

/-- C1 counterexample: the claim says supported type names are matched
case-insensitively, so `decode "integer" v` on a value whose integer
decode succeeds (yielding 5) would have to produce the integer 5.  The
transcribed decoder matches case-sensitively: the lowercase name falls to
the string-fallback arm and yields null even though the integer decode
succeeded, while the uppercase spelling yields the integer. -/
theorem C1_counterexample :
    rawIntOnly.getI64 = some 5 ∧
    decode "integer" rawIntOnly = .null ∧
    decode "INTEGER" rawIntOnly = .int 5 :=
  ⟨rfl, rfl, rfl⟩

/-- C1 witness: the amended theorem applied at the name `"INT8"` and the
value `rawIntOnly`, whose hypotheses hold by computation. -/
theorem C1_witness :
    (∃ n, rawIntOnly.getI64 = some n ∧ decode "INT8" rawIntOnly = .int n) ∨
    (rawIntOnly.getI64 = none ∧ decode "INT8" rawIntOnly = .null) :=
  (C1_decode_case_sensitive_kinds "INT8" rawIntOnly).2.1 (by decide)

/-! ## C2 — `test_connection` and the probe pool -/

/-- A descriptor for a probe of an SQLite file. -/
def cfgSqliteProbe : ConnectionConfig :=
  { id := "c1", name := "probe", db_type := .SQLite, host := none, port := none,
    username := none, password := none, database := none, file_path := some "db.sqlite" }

/-- An environment in which the engine accepts the connection (the
handshake succeeds) but the version query fails. -/
def envVersionFails : Env :=
  { openPool := fun _ => .ok ()
    fetchAll := fun _ => .ok []
    fetchOne := fun _ => .error "version query failed"
    execute := fun _ => .ok 0
    parseJson := fun _ => .error "not json"
    latencyMs := 3
    elapsedMs := 0 }

/-- C2 (code bug): when the handshake succeeds and the version query then
fails, `test_connection` propagates the error through `?` before the
`pool.close().await` statement is reached: the probe trace records the
pool as opened but never closed (first two conjuncts), while on the fully
successful path the pool is closed (third conjunct).  The claim — and the
spec's "Must close the probe connection even when the version query itself
fails" — requires the close on the failure path too.  The other half of the
claim holds trivially: `test_connection` is an associated function without
`&self` and has no access to the registry map at all (its signature here
does not even mention `Registry`). -/
theorem C2_probe_close_skipped_on_version_failure :
    test_connection cfgSqliteProbe envVersionFails =
      (.error "version query failed", [ProbeEvent.opened]) ∧
    ProbeEvent.closed ∉ (test_connection cfgSqliteProbe envVersionFails).2 ∧
    test_connection cfgSqliteProbe
        { envVersionFails with fetchOne := fun _ => .ok [] } =
      (.ok ⟨true, 3, "SQLite Unknown", none⟩, [ProbeEvent.opened, ProbeEvent.closed]) :=
  ⟨rfl, by decide, rfl⟩

/-! ## C4 — `connect` is all-or-nothing on the registry -/

/-- Inserting returns the inserted value at its key. -/
theorem regGet_regInsert_self (reg : Registry) (k : String) (v : DatabasePool) :
    regGet (regInsert reg k v) k = some v := by
  induction reg with
  | nil => simp [regInsert, regGet]
  | cons p rest ih =>
    rcases p with ⟨k', v'⟩
    by_cases h : k' = k
    · simp [regInsert, regGet, h]
    · simp [regInsert, regGet, h, ih]

/-- Inserting leaves every other key unchanged. -/
theorem regGet_regInsert_ne (reg : Registry) (k k' : String) (v : DatabasePool)
    (h : k' ≠ k) :
    regGet (regInsert reg k v) k' = regGet reg k' := by
  induction reg with
  | nil => simp [regInsert, regGet, Ne.symm h]
  | cons p rest ih =>
    rcases p with ⟨a, b⟩
    by_cases ha : a = k
    · subst ha
      simp [regInsert, regGet, Ne.symm h]
    · simp [regInsert, regGet, ha, ih]

/-- `connect` either returns an error with the registry untouched, or
succeeds and the final registry is the insertion of the freshly built pool
under the descriptor id. -/
theorem connect_cases (config : ConnectionConfig) (env : Env) (reg : Registry) :
    (∃ e, connect config env reg = (.error e, reg)) ∨
    ∃ pool, connectPool config env = .ok pool ∧
      connect config env reg = (.ok (), regInsert reg config.id pool) := by
  cases h : connectPool config env with
  | error e => exact Or.inl ⟨e, by simp [connect, h]⟩
  | ok pool => exact Or.inr ⟨pool, rfl, by simp [connect, h]⟩

/-- C4: `connect` is all-or-nothing on the registry.  If building the
connection string or opening the pooled connection fails, the connection
map is returned unchanged (so an absent id stays absent); on success the
final map is exactly the insertion of the freshly built pool — the one
`connectPool` produced on this call — under `config.id`, so a lookup of
`config.id` now answers that new handle (any prior entry for the id is
replaced) and every other key is untouched. -/
theorem C4_connect_all_or_nothing (config : ConnectionConfig) (env : Env) (reg : Registry) :
    ((∃ e, (connect config env reg).1 = .error e) → (connect config env reg).2 = reg) ∧
    ((connect config env reg).1 = .ok () →
      ∃ pool, connectPool config env = .ok pool ∧
        (connect config env reg).2 = regInsert reg config.id pool ∧
        regGet (connect config env reg).2 config.id = some pool ∧
        ∀ k, k ≠ config.id → regGet (connect config env reg).2 k = regGet reg k) := by
  rcases connect_cases config env reg with ⟨e, he⟩ | ⟨pool, hpool, he⟩
  · refine ⟨fun _ => by rw [he], fun hok => ?_⟩
    rw [he] at hok
    exact absurd hok (by simp)
  · refine ⟨fun ⟨e', he'⟩ => ?_, fun _ => ?_⟩
    · rw [he] at he'
      exact absurd he' (by simp)
    · refine ⟨pool, hpool, by rw [he], ?_, fun k hk => ?_⟩
      · rw [he]
        exact regGet_regInsert_self reg config.id pool
      · rw [he]
        exact regGet_regInsert_ne reg config.id k pool hk

/-- A descriptor whose id collides with an existing registry entry. -/
def cfgW : ConnectionConfig :=
  { id := "a", name := "w", db_type := .SQLite, host := none, port := none,
    username := none, password := none, database := none, file_path := some "f.db" }

/-- An environment in which every engine call succeeds (with empty data). -/
def envAllOk : Env :=
  { openPool := fun _ => .ok ()
    fetchAll := fun _ => .ok []
    fetchOne := fun _ => .ok []
    execute := fun _ => .ok 0
    parseJson := fun _ => .error "not json"
    latencyMs := 0
    elapsedMs := 0 }

/-- C4 witness: a successful `connect` over a registry that already holds
the id (as a Postgres handle) replaces that entry with the freshly built
SQLite pool and leaves the other key alone; the final map is spelled out
literally. -/
theorem C4_witness :
    (connect cfgW envAllOk [("a", .postgres), ("b", .mysql)]).1 = .ok () ∧
    (connect cfgW envAllOk [("a", .postgres), ("b", .mysql)]).2 =
      [("a", DatabasePool.sqlite), ("b", DatabasePool.mysql)] ∧
    (∃ pool, connectPool cfgW envAllOk = .ok pool ∧
      (connect cfgW envAllOk [("a", .postgres), ("b", .mysql)]).2 =
        regInsert [("a", .postgres), ("b", .mysql)] cfgW.id pool ∧
      regGet (connect cfgW envAllOk [("a", .postgres), ("b", .mysql)]).2 cfgW.id = some pool) ∧
    regGet (connect cfgW envAllOk [("a", .postgres), ("b", .mysql)]).2 "b" =
      regGet [("a", .postgres), ("b", .mysql)] "b" := by
  obtain ⟨pool, h1, h2, h3, h4⟩ :=
    (C4_connect_all_or_nothing cfgW envAllOk [("a", .postgres), ("b", .mysql)]).2 rfl
  exact ⟨rfl, rfl, ⟨pool, h1, h2, h3⟩, h4 "b" (by decide)⟩

/-! ## C6 — `execute_query` result shape -/

/-- C6: on a registered connection id, a statement whose result set is
empty yields the all-empty `QueryResult` (no columns, no rows, zero rows
affected); a non-empty result set yields a result whose column names are
the first row's column names, whose row count matches, and whose
rows-affected count is zero. -/
theorem C6_execute_query_result_shape (reg : Registry) (env : Env) (cid q : String)
    (h : (regGet reg cid).isSome = true) :
    (env.fetchAll q = .ok [] → execute_query reg env cid q = .ok ⟨[], [], 0⟩) ∧
    (∀ r0 rest, env.fetchAll q = .ok (r0 :: rest) →
      ∃ res, execute_query reg env cid q = .ok res ∧
        res.columns = r0.map RawColumn.name ∧
        res.rows_affected = 0 ∧
        res.rows.length = rest.length + 1) := by
  obtain ⟨pool, hp⟩ := Option.isSome_iff_exists.mp h
  constructor
  · intro hf
    simp [execute_query, hp, hf, process_rows]
  · intro r0 rest hf
    refine ⟨process_rows (r0 :: rest), ?_, rfl, rfl, by simp [process_rows]⟩
    simp [execute_query, hp, hf]

/-- An environment whose every fetch returns the empty result set. -/
def envFetchEmpty : Env :=
  { openPool := fun _ => .ok ()
    fetchAll := fun _ => .ok []
    fetchOne := fun _ => .ok []
    execute := fun _ => .ok 0
    parseJson := fun _ => .error "not json"
    latencyMs := 0
    elapsedMs := 0 }

/-- C6 witness: the theorem applied at a one-entry registry and the
empty-result environment. -/
theorem C6_witness :
    execute_query [("c", DatabasePool.sqlite)] envFetchEmpty "c" "SELECT 1" = .ok ⟨[], [], 0⟩ :=
  (C6_execute_query_result_shape [("c", DatabasePool.sqlite)] envFetchEmpty "c" "SELECT 1"
    (by decide)).1 rfl

/-! ## C7 — SQLite column drop is refused before the engine -/

/-- C7: on a registered SQLite connection id, `alter_table_drop_column`
returns the explicit unsupported-operation error and submits no statement
to the engine (the statement trace is empty, so the database state is
untouched). -/
theorem C7_sqlite_drop_column_unsupported (reg : Registry) (env : Env)
    (cid t c : String) (pool : DatabasePool) (h : regGet reg cid = some pool) :
    alter_table_drop_column reg env cid t c .SQLite =
      (.error "SQLite does not support dropping columns directly. Please recreate the table.",
       []) := by
  simp [alter_table_drop_column, h]

/-- C7 witness: the theorem applied at a concrete one-entry registry. -/
theorem C7_witness :
    alter_table_drop_column [("c", DatabasePool.sqlite)] envFetchEmpty "c" "users" "age" .SQLite =
      (.error "SQLite does not support dropping columns directly. Please recreate the table.",
       []) :=
  C7_sqlite_drop_column_unsupported [("c", DatabasePool.sqlite)] envFetchEmpty "c" "users" "age"
    .sqlite (by decide)

/-! ## C3 — the recommendation engine on the spec's own test plan -/

/-- The plan node of the spec's testable property: a `Seq Scan` over
`orders` with an estimated 50000 rows, no cost, no children. -/
def ordersSeqScanStep : PlanStep :=
  .mk "Seq Scan" (some "orders") (some 50000) none none none .nil

/-- C3 (code bug): on the spec's own test plan — one `Seq Scan` node over
`orders` with 50000 estimated rows — the engine emits the index suggestion
and the high-row-count warning, but ALSO the well-optimized message: the
recursive call on the node's empty child list is the full function,
fallback included, so it returns the well-optimized message and the parent
merges it in.  The second conjunct shows the other divergence: two
identical sibling nodes yield duplicated messages, because the direct rule
pushes never consult the `contains` de-duplication check (only
recommendations bubbled up from children do). -/
theorem C3_recommendations_diverge :
    generate_recommendations (.cons ordersSeqScanStep .nil) =
      [seqScanMsg "orders", highRowsMsg 50000, wellOptimizedMsg] ∧
    generate_recommendations (.cons ordersSeqScanStep (.cons ordersSeqScanStep .nil)) =
      [seqScanMsg "orders", highRowsMsg 50000, wellOptimizedMsg,
       seqScanMsg "orders", highRowsMsg 50000] :=
  ⟨rfl, rfl⟩

/-! ## C9 — the SQLite explain path never fires a recommendation rule -/

/-- `toList` undoes `ofList`. -/
theorem PlanStepList.toList_ofList (l : List PlanStep) :
    (PlanStepList.ofList l).toList = l := by
  induction l with
  | nil => rfl
  | cons s rest ih => simp [PlanStepList.ofList, PlanStepList.toList, ih]

/-- Pushing the same message twice adds it at most once. -/
theorem pushIfAbsent_idem (acc : List String) (w : String) :
    pushIfAbsent (pushIfAbsent acc w) w = pushIfAbsent acc w := by
  unfold pushIfAbsent
  by_cases h : w ∈ acc
  · simp [h]
  · simp [h]

/-- One SQLite plan step contributes exactly a well-optimized message from
its empty child list: no direct rule fires on `"SQLite Plan"`. -/
theorem genRecsGo_sqlite_cons (t : PlanStepList) (acc : List String) :
    genRecsGo (.cons sqlitePlanStep t) acc =
      genRecsGo t (pushIfAbsent acc wellOptimizedMsg) := rfl

/-- Over any list of SQLite plan steps, the loop accumulates exactly one
well-optimized message (none when the list is empty). -/
theorem genRecsGo_sqlite_all {α : Type} (l : List α) (acc : List String) :
    genRecsGo (PlanStepList.ofList (l.map (fun _ => sqlitePlanStep))) acc =
      if l.isEmpty then acc else pushIfAbsent acc wellOptimizedMsg := by
  induction l generalizing acc with
  | nil => simp [PlanStepList.ofList, genRecsGo]
  | cons x rest ih =>
    simp only [List.map_cons, PlanStepList.ofList, genRecsGo_sqlite_cons, ih]
    cases rest with
    | nil => simp
    | cons y t => simp [pushIfAbsent_idem]

/-- The recommendation list of any all-SQLite step list is exactly the
single well-optimized message. -/
theorem generate_recommendations_sqlite {α : Type} (l : List α) :
    generate_recommendations (PlanStepList.ofList (l.map (fun _ => sqlitePlanStep))) =
      [wellOptimizedMsg] := by
  unfold generate_recommendations
  rw [genRecsGo_sqlite_all]
  cases l with
  | nil => simp
  | cons x rest => simp [pushIfAbsent]

/-- The SQLite arm of the explain dispatch, written out. -/
theorem explainSteps_sqlite (env : Env) (q : String) (analyze : Bool) :
    explainSteps .sqlite env q analyze .SQLite =
      match env.fetchAll ("EXPLAIN QUERY PLAN " ++ q) with
      | .error e => .error e
      | .ok rows => .ok (PlanStepList.ofList (rows.map (fun _ => sqlitePlanStep)), none) := rfl

/-- C9: on a registered SQLite connection id, every successful
`explain_query` returns plan steps that are all exactly the bare
`"SQLite Plan"` step — no table name, row estimate, cost, filter, index or
children — so no recommendation rule can fire and the recommendation list
is exactly the single well-optimized message. -/
theorem C9_sqlite_explain_well_optimized (reg : Registry) (env : Env) (cid q : String)
    (analyze : Bool) (plan : ExecutionPlan)
    (hreg : regGet reg cid = some .sqlite)
    (h : explain_query reg env cid q analyze .SQLite = .ok plan) :
    (∀ s ∈ plan.plan_steps.toList, s = sqlitePlanStep) ∧
    plan.recommendations = [wellOptimizedMsg] := by
  simp only [explain_query, hreg, explainSteps_sqlite] at h
  cases hf : env.fetchAll ("EXPLAIN QUERY PLAN " ++ q) with
  | error e => simp [hf] at h
  | ok rows =>
    simp only [hf, Except.ok.injEq] at h
    subst h
    constructor
    · intro s hs
      rw [PlanStepList.toList_ofList] at hs
      obtain ⟨x, _, hx⟩ := List.mem_map.mp hs
      exact hx.symm
    · exact generate_recommendations_sqlite rows

/-- A one-entry SQLite registry. -/
def regSqliteW : Registry := [("c1", .sqlite)]

/-- An environment whose every fetch returns two (empty) rows. -/
def envTwoRows : Env :=
  { openPool := fun _ => .ok ()
    fetchAll := fun _ => .ok [[], []]
    fetchOne := fun _ => .ok []
    execute := fun _ => .ok 0
    parseJson := fun _ => .error "not json"
    latencyMs := 0
    elapsedMs := 0 }

/-- The execution plan the witness run produces. -/
def planW : ExecutionPlan :=
  { query := "SELECT 1"
    plan_steps := .cons sqlitePlanStep (.cons sqlitePlanStep .nil)
    total_cost := none
    execution_time_ms := none
    recommendations := [wellOptimizedMsg] }

/-- C9 witness: the theorem applied at a concrete SQLite registry entry
and a two-row explain result. -/
theorem C9_witness :
    explain_query regSqliteW envTwoRows "c1" "SELECT 1" false .SQLite = .ok planW ∧
    planW.recommendations = [wellOptimizedMsg] :=
  ⟨rfl,
   (C9_sqlite_explain_well_optimized regSqliteW envTwoRows "c1" "SELECT 1" false planW
     rfl rfl).2⟩

/-! ## C5 — the bulk INSERT statement -/

/-- The transcription's value rendering coincides with the spec-worded
one. -/
theorem sqlValue_eq_spec (v : Json) : sqlValue v = specRenderValue v := by
  cases v <;> rfl

/-- When every row is an object, the value-list loop succeeds and produces
exactly the spec-worded row tuples, read through the given column list. -/
theorem buildValueLists_objs (cols : List String) (rows : List Json) (objs : List JsonFields)
    (h : rows.map Json.asObj = objs.map some) :
    buildValueLists cols rows = .ok (objs.map (specRowTuple cols)) := by
  induction rows generalizing objs with
  | nil =>
    cases objs with
    | nil => rfl
    | cons o os => simp at h
  | cons r rs ih =>
    cases objs with
    | nil => simp at h
    | cons o os =>
      simp only [List.map_cons, List.cons.injEq] at h
      obtain ⟨h1, h2⟩ := h
      simp only [buildValueLists, h1, ih os h2, List.map_cons]
      simp [specRowTuple, sqlValue_eq_spec]

/-- C5: `bulk_insert_rows` on the empty row list returns the success
message and submits no statement; on a non-empty list of row objects (with
a live connection) it submits exactly one statement, and that statement is
the spec-worded multi-row `INSERT`: columns from the first row only, later
rows read through that column list with missing keys as SQL `NULL`, string
values escaped only by doubling single quotes. -/
theorem C5_bulk_insert_shape (reg : Registry) (env : Env) (cid table : String)
    (dbType : DatabaseType) (rows : List Json) (objs : List JsonFields)
    (hobjs : rows.map Json.asObj = objs.map some) :
    (rows = [] → bulk_insert_rows reg env cid table rows dbType = (.ok "No rows to insert", [])) ∧
    (rows ≠ [] → (regGet reg cid).isSome = true →
      ∃ q, (bulk_insert_rows reg env cid table rows dbType).2 = [q] ∧
        specBulkInsertStatement table objs = some q) := by
  constructor
  · rintro rfl
    rfl
  · intro hne hreg
    obtain ⟨pool, hp⟩ := Option.isSome_iff_exists.mp hreg
    cases rows with
    | nil => exact absurd rfl hne
    | cons first rest =>
      cases objs with
      | nil => simp at hobjs
      | cons o os =>
        simp only [List.map_cons, List.cons.injEq] at hobjs
        obtain ⟨h1, h2⟩ := hobjs
        have hb : buildValueLists o.keys (first :: rest) =
            .ok ((o :: os).map (specRowTuple o.keys)) :=
          buildValueLists_objs o.keys (first :: rest) (o :: os) (by simp [h1, h2])
        refine ⟨"INSERT INTO " ++ table ++ " (" ++ String.intercalate ", " o.keys
          ++ ") VALUES " ++ String.intercalate ", " ((o :: os).map (specRowTuple o.keys)),
          ?_, rfl⟩
        simp only [bulk_insert_rows, hp, h1, hb]
        split <;> rfl

/-- Two concrete bulk rows: the second is missing the key `b` that the
first row has, and the first holds a string with a single quote. -/
def bulkRowsW : List Json :=
  [.obj (.cons "a" (.int 1) (.cons "b" (.str "x'y") .nil)),
   .obj (.cons "a" (.int 2) .nil)]

/-- The object views of `bulkRowsW`. -/
def bulkObjsW : List JsonFields :=
  [.cons "a" (.int 1) (.cons "b" (.str "x'y") .nil),
   .cons "a" (.int 2) .nil]

/-- C5 witness: the theorem applied at the concrete rows; additionally the
resulting statement is spelled out — one multi-row `INSERT` with the
missing key as `NULL` and the quote doubled. -/
theorem C5_witness :
    (∃ q, (bulk_insert_rows [("c", DatabasePool.sqlite)] envAllOk "c" "t" bulkRowsW .SQLite).2
        = [q] ∧
      specBulkInsertStatement "t" bulkObjsW = some q) ∧
    specBulkInsertStatement "t" bulkObjsW =
      some "INSERT INTO t (a, b) VALUES (1, 'x''y'), (2, NULL)" :=
  ⟨(C5_bulk_insert_shape [("c", DatabasePool.sqlite)] envAllOk "c" "t" .SQLite bulkRowsW
      bulkObjsW rfl).2 (by simp [bulkRowsW]) (by decide),
   rfl⟩

/-! ## C8 — tunnel authentication method selection -/

/-- A transport environment in which every stage succeeds. -/
def sshEnvAllOk : SshEnv :=
  { tcpConnect := .ok ()
    sessionNew := .ok ()
    handshake := .ok ()
    authPassword := fun _ _ => .ok ()
    authKey := fun _ _ => .ok ()
    authenticated := true
    bindLocal := .ok 4000 }

/-- C8 counterexample: the claim says any combination of the two optional
credentials other than exactly one fails with the no-authentication-method
error.  Giving BOTH credentials is such a combination, yet `connect`
succeeds: password authentication is attempted (and the key ignored), the
port is bound and the worker spawned. -/
theorem C8_counterexample :
    (sshTunnelConnect sshEnvAllOk "h" 22 "u" (some "pw") (some "/k") "r" 5432).1 = .ok 4000 ∧
    (sshTunnelConnect sshEnvAllOk "h" 22 "u" (some "pw") (some "/k") "r" 5432).2 =
      [.tcpConnect, .handshake, .authPassword, .bindLocalPort, .spawnWorker] :=
  ⟨rfl, rfl⟩

/-- C8 (amended): `connect` attempts exactly one authentication method
whenever the transport stages (TCP connect, session, handshake) succeed
and a credential is present — the password when one is given (the key
path is then ignored), else the key when only a key path is given.  Only
when neither credential is present does it fail with
`"No SSH authentication method provided"` (whenever the transport stages
succeeded), and on that path it neither binds a local port nor spawns a
worker. -/
theorem C8_auth_selection (env : SshEnv) (host : String) (port : Nat) (user : String)
    (pw key : Option String) (rh : String) (rp : Nat) :
    (pw = none → key = none →
      TunnelEvent.bindLocalPort ∉ (sshTunnelConnect env host port user pw key rh rp).2 ∧
      TunnelEvent.spawnWorker ∉ (sshTunnelConnect env host port user pw key rh rp).2 ∧
      (env.tcpConnect = .ok () → env.sessionNew = .ok () → env.handshake = .ok () →
        (sshTunnelConnect env host port user pw key rh rp).1 =
          .error "No SSH authentication method provided")) ∧
    (¬(TunnelEvent.authPassword ∈ (sshTunnelConnect env host port user pw key rh rp).2 ∧
       TunnelEvent.authKey ∈ (sshTunnelConnect env host port user pw key rh rp).2)) ∧
    (∀ p, pw = some p →
      TunnelEvent.authKey ∉ (sshTunnelConnect env host port user pw key rh rp).2) ∧
    (∀ p, pw = some p →
      env.tcpConnect = .ok () → env.sessionNew = .ok () → env.handshake = .ok () →
      TunnelEvent.authPassword ∈ (sshTunnelConnect env host port user pw key rh rp).2) ∧
    (pw = none → ∀ k, key = some k →
      env.tcpConnect = .ok () → env.sessionNew = .ok () → env.handshake = .ok () →
      TunnelEvent.authKey ∈ (sshTunnelConnect env host port user pw key rh rp).2) := by
  rcases htcp : env.tcpConnect with e | u
  · simp [sshTunnelConnect, htcp]
  · rcases hsn : env.sessionNew with e | u1
    · simp [sshTunnelConnect, htcp, hsn]
    · rcases hhs : env.handshake with e | u2
      · simp [sshTunnelConnect, htcp, hsn, hhs]
      · cases pw with
        | some p =>
          rcases hap : env.authPassword user p with e | u3
          · simp [sshTunnelConnect, htcp, hsn, hhs, hap]
          · cases hau : env.authenticated
            · simp [sshTunnelConnect, htcp, hsn, hhs, hap, hau]
            · rcases hbl : env.bindLocal with e | prt
              · simp [sshTunnelConnect, htcp, hsn, hhs, hap, hau, hbl]
              · simp [sshTunnelConnect, htcp, hsn, hhs, hap, hau, hbl]
        | none =>
          cases key with
          | some k =>
            rcases hak : env.authKey user k with e | u3
            · simp [sshTunnelConnect, htcp, hsn, hhs, hak]
            · cases hau : env.authenticated
              · simp [sshTunnelConnect, htcp, hsn, hhs, hak, hau]
              · rcases hbl : env.bindLocal with e | prt
                · simp [sshTunnelConnect, htcp, hsn, hhs, hak, hau, hbl]
                · simp [sshTunnelConnect, htcp, hsn, hhs, hak, hau, hbl]
          | none => simp [sshTunnelConnect, htcp, hsn, hhs]

/-- C8 witness: the amended theorem applied over the all-successful
transport environment, with neither credential (the error path, no bind,
no spawn), with only a password (password auth attempted), and with only
a key path (key auth attempted). -/
theorem C8_witness :
    TunnelEvent.bindLocalPort ∉ (sshTunnelConnect sshEnvAllOk "h" 22 "u" none none "r" 5432).2 ∧
    TunnelEvent.spawnWorker ∉ (sshTunnelConnect sshEnvAllOk "h" 22 "u" none none "r" 5432).2 ∧
    (sshTunnelConnect sshEnvAllOk "h" 22 "u" none none "r" 5432).1 =
      .error "No SSH authentication method provided" ∧
    TunnelEvent.authPassword ∈
      (sshTunnelConnect sshEnvAllOk "h" 22 "u" (some "pw") none "r" 5432).2 ∧
    TunnelEvent.authKey ∈
      (sshTunnelConnect sshEnvAllOk "h" 22 "u" none (some "/k") "r" 5432).2 := by
  have h1 := (C8_auth_selection sshEnvAllOk "h" 22 "u" none none "r" 5432).1 rfl rfl
  have h2 := (C8_auth_selection sshEnvAllOk "h" 22 "u" (some "pw") none "r" 5432).2.2.2.1
    "pw" rfl rfl rfl rfl
  have h3 := (C8_auth_selection sshEnvAllOk "h" 22 "u" none (some "/k") "r" 5432).2.2.2.2
    rfl "/k" rfl rfl rfl rfl
  exact ⟨h1.1, h1.2.1, h1.2.2 rfl rfl rfl, h2, h3⟩

/-! ## C10 — only the empty bulk insert skips the registry -/

/-- Removal of an absent key removes nothing. -/
theorem regRemove_fst_eq_none (reg : Registry) (cid : String)
    (h : regGet reg cid = none) : (regRemove reg cid).1 = none := by
  induction reg with
  | nil => rfl
  | cons p rest ih =>
    rcases p with ⟨k, v⟩
    by_cases hk : k = cid
    · simp [regGet, hk] at h
    · simp only [regGet, if_neg hk] at h
      simp [regRemove, hk, ih h]

/-- `disconnect` on an absent id fails with the registry error and the map
untouched. -/
theorem disconnect_absent (reg : Registry) (cid : String)
    (h : regGet reg cid = none) :
    disconnect reg cid = (.error "Connection not found", reg) := by
  have hf := regRemove_fst_eq_none reg cid h
  cases hrm : regRemove reg cid with
  | mk fst snd =>
    rw [hrm] at hf
    have hf2 : fst = none := hf
    subst hf2
    simp [disconnect, hrm]

/-- C10: `bulk_insert_rows` with the empty row list succeeds — with the
"No rows to insert" message and no statement — before the registry is ever
consulted, so it succeeds even on an id with no live connection; whereas
every other registry operation (and the non-empty bulk insert itself)
fails with the registry error on that id. -/
theorem C10_empty_bulk_insert_skips_registry (reg : Registry) (env : Env)
    (cid table q tn cn dt oldN newN w : String) (data : Json) (rows2 : List Json)
    (cols : List (String × String × Bool × Bool)) (analyze nullable : Bool)
    (dbType : DatabaseType)
    (h : regGet reg cid = none) :
    bulk_insert_rows reg env cid table [] dbType = (.ok "No rows to insert", []) ∧
    disconnect reg cid = (.error "Connection not found", reg) ∧
    list_tables reg env cid dbType = .error "Connection not found" ∧
    get_table_structure reg env cid tn dbType = .error "Connection not found" ∧
    execute_query reg env cid q = .error "Connection not found" ∧
    explain_query reg env cid q analyze dbType = .error "Connection not found" ∧
    insert_row reg env cid table data dbType = (.error "Connection not found", []) ∧
    update_row reg env cid table data w dbType = (.error "Connection not found", []) ∧
    delete_rows reg env cid table w = (.error "Connection not found", []) ∧
    create_table reg env cid table cols dbType = (.error "Connection not found", []) ∧
    drop_table reg env cid table = (.error "Connection not found", []) ∧
    alter_table_add_column reg env cid table cn dt nullable dbType =
      (.error "Connection not found", []) ∧
    alter_table_drop_column reg env cid table cn dbType =
      (.error "Connection not found", []) ∧
    rename_table reg env cid oldN newN dbType = (.error "Connection not found", []) ∧
    export_table_structure reg env cid tn dbType = .error "Connection not found" ∧
    (rows2 ≠ [] →
      (bulk_insert_rows reg env cid table rows2 dbType).1 = .error "Connection not found") := by
  refine ⟨rfl, disconnect_absent reg cid h, ?_, ?_, ?_, ?_, ?_, ?_, ?_, ?_, ?_, ?_, ?_, ?_, ?_, ?_⟩
  · simp [list_tables, h]
  · simp [get_table_structure, h]
  · simp [execute_query, h]
  · simp [explain_query, h]
  · simp [insert_row, h]
  · simp [update_row, h]
  · simp [delete_rows, h]
  · simp [create_table, h]
  · simp [drop_table, h]
  · simp [alter_table_add_column, h]
  · simp [alter_table_drop_column, h]
  · simp [rename_table, h]
  · simp [export_table_structure, h]
  · intro hne
    cases rows2 with
    | nil => exact absurd rfl hne
    | cons r rs => simp [bulk_insert_rows, h]

/-- C10 witness: the theorem applied at the empty registry; the empty bulk
insert succeeds where `execute_query` and `disconnect` fail. -/
theorem C10_witness :
    bulk_insert_rows [] envAllOk "c" "t" [] .SQLite = (.ok "No rows to insert", []) ∧
    execute_query [] envAllOk "c" "SELECT 1" = .error "Connection not found" ∧
    disconnect [] "c" = (.error "Connection not found", []) := by
  have hh := C10_empty_bulk_insert_skips_registry [] envAllOk "c" "t" "SELECT 1" "tn" "cn"
    "INTEGER" "o" "n" "1 = 1" .null [.null] [] false true .SQLite rfl
  exact ⟨hh.1, hh.2.2.2.2.1, hh.2.1⟩

end NodaDB
